import Mathlib

/-!
# Verification of the Homey Open AIR image-generation pipeline

Shallow embedding of `generate_images.py`. Python's exact real arithmetic on
the quantities the claims concern is modelled over ℚ (all the constants in the
script, such as 0.6 or 3.2, denote exact decimal fractions in the design math);
Python's `int()` (truncation toward zero) is modelled by `pyInt`, and Python's
floor division `//` by `Int.fdiv`.  Drawing calls are modelled as the list of
drawing commands they would issue, in program order; the PIL canvas itself and
font metrics (text bounding boxes) are external to the script's logic and are
not modelled beyond the commands sent to them.
-/

namespace OpenAIR

/-- A 2-D point with exact rational coordinates (a Python float pair). -/
abbrev Pt : Type := ℚ × ℚ

/-- Python `int()` applied to an exact value: truncation toward zero. -/
def pyInt (q : ℚ) : ℤ := if q < 0 then -⌊-q⌋ else ⌊q⌋

theorem pyInt_eq_floor {q : ℚ} (h : 0 ≤ q) : pyInt q = ⌊q⌋ := by
  simp [pyInt, not_lt.mpr h]

theorem pyInt_nonneg {q : ℚ} (h : 0 ≤ q) : 0 ≤ pyInt q := by
  rw [pyInt_eq_floor h]
  exact Int.floor_nonneg.mpr h

/-- A colour as the script uses them: a Python tuple of 3 (RGB) or 4 (RGBA)
channel values, indexable as the gradient loop does with `BG_DARK[0]`. -/
abbrev Color : Type := List ℤ

-- --- Colour palette (module-level constants of the script) ---
def BG_DARK : Color := [30, 47, 60]
def BG_MID : Color := [36, 58, 74]
def GREEN : Color := [46, 204, 113]
def ICON_WHITE : Color := [220, 225, 230]
def LINE_DIM : Color := [50, 75, 90]
def DOT_DIM : Color := [55, 80, 95]
def TEXT_COL : Color := [160, 185, 200]
def GREEN_DIM : Color := [46, 204, 113, 60]

/-- A `draw.line([a, b], fill, width)` call. -/
structure LineCmd where
  a : Pt
  b : Pt
  fill : Color
  width : ℤ
deriving DecidableEq

/-- A `draw.ellipse([x0, y0, x1, y1], fill)` call. -/
structure EllipseCmd where
  x0 : ℚ
  y0 : ℚ
  x1 : ℚ
  y1 : ℚ
  fill : Color
deriving DecidableEq

/-- A `draw.rounded_rectangle([x0, y0, x1, y1], radius, fill)` call. -/
structure RectCmd where
  x0 : ℤ
  y0 : ℤ
  x1 : ℤ
  y1 : ℤ
  radius : ℤ
  fill : Color
deriving DecidableEq

-- --- draw_breeze_curve ---

/-- The fixed sample count of the Bézier renderer (`steps = 80`). -/
def steps : ℕ := 80

/-- The closed-form cubic Bézier evaluator nested in `draw_breeze_curve`. -/
def cubic_bezier (p0 p1 p2 p3 : Pt) (t : ℚ) : Pt :=
  let u := 1 - t
  (u ^ 3 * p0.1 + 3 * u ^ 2 * t * p1.1 + 3 * u * t ^ 2 * p2.1 + t ^ 3 * p3.1,
   u ^ 3 * p0.2 + 3 * u ^ 2 * t * p1.2 + 3 * u * t ^ 2 * p2.2 + t ^ 3 * p3.2)

/-- Default point for out-of-range list indexing (never reached when the
control list has the 7 points the script always passes). -/
def defaultPt : Pt := (0, 0)

/-- The first loop of `draw_breeze_curve`: samples of the first segment at
`t = i / steps` for `i in range(steps + 1)`. -/
def seg1Samples (points : List Pt) : List Pt :=
  (List.range (steps + 1)).map fun (i : ℕ) =>
    cubic_bezier (points.getD 0 defaultPt) (points.getD 1 defaultPt)
      (points.getD 2 defaultPt) (points.getD 3 defaultPt) ((i : ℚ) / (steps : ℚ))

/-- All `steps + 1` samples of the second segment, including the `t = 0`
sample that the code deliberately skips (used to state the skipping). -/
def seg2AllSamples (points : List Pt) : List Pt :=
  (List.range (steps + 1)).map fun (i : ℕ) =>
    cubic_bezier (points.getD 3 defaultPt) (points.getD 4 defaultPt)
      (points.getD 5 defaultPt) (points.getD 6 defaultPt) ((i : ℚ) / (steps : ℚ))

/-- `all_pts` of `draw_breeze_curve`: first-segment samples for
`i in range(steps + 1)` followed by second-segment samples for
`i in range(1, steps + 1)`. -/
def breezePoints (points : List Pt) : List Pt :=
  seg1Samples points ++
    (List.range' 1 steps).map fun (i : ℕ) =>
      cubic_bezier (points.getD 3 defaultPt) (points.getD 4 defaultPt)
        (points.getD 5 defaultPt) (points.getD 6 defaultPt) ((i : ℚ) / (steps : ℚ))

/-- `draw_breeze_curve`: emits one `draw.line` per consecutive pair of
sampled points. -/
def draw_breeze_curve (points : List Pt) (width : ℤ) (color : Color) :
    List LineCmd :=
  let all_pts := breezePoints points
  (all_pts.zip all_pts.tail).map fun pq => ⟨pq.1, pq.2, color, width⟩

theorem cubic_bezier_zero (p0 p1 p2 p3 : Pt) :
    cubic_bezier p0 p1 p2 p3 0 = p0 := by
  unfold cubic_bezier
  norm_num

theorem cubic_bezier_one (p0 p1 p2 p3 : Pt) :
    cubic_bezier p0 p1 p2 p3 1 = p3 := by
  unfold cubic_bezier
  norm_num

theorem seg1Samples_length (points : List Pt) :
    (seg1Samples points).length = steps + 1 := by
  rw [seg1Samples, List.length_map, List.length_range]

theorem breezePoints_length (points : List Pt) :
    (breezePoints points).length = 161 := by
  rw [breezePoints, List.length_append, seg1Samples_length, List.length_map,
    List.length_range']
  rfl

theorem breezePoints_eq_append_tail (points : List Pt) :
    breezePoints points = seg1Samples points ++ (seg2AllSamples points).tail := by
  rw [breezePoints, seg2AllSamples, List.range_eq_range', List.range'_succ,
    List.map_cons, List.tail_cons]

theorem seg2AllSamples_head (points : List Pt) :
    (seg2AllSamples points).head? = some (points.getD 3 defaultPt) := by
  rw [seg2AllSamples, List.range_eq_range', List.range'_succ, List.map_cons,
    List.head?_cons]
  norm_num [cubic_bezier_zero]

theorem breezePoints_join (points : List Pt) :
    (breezePoints points)[80]? = some (points.getD 3 defaultPt) := by
  rw [breezePoints,
    List.getElem?_append_left (by rw [seg1Samples_length]; norm_num [steps]),
    seg1Samples, List.getElem?_map, List.getElem?_range (by norm_num [steps])]
  norm_num [steps, cubic_bezier_one]

-- --- draw_icon ---

/-- The three hardcoded control-point sequences of the icon (top, middle,
bottom airflow curves), in the 0-100 design grid. -/
def iconCurves : List (List Pt) :=
  [[(18, 30), (30, 18), (44, 42), (56, 30), (68, 18), (80, 34), (90, 26)],
   [(10, 50), (24, 36), (40, 64), (54, 50), (68, 36), (82, 56), (94, 46)],
   [(18, 70), (30, 58), (44, 82), (56, 70), (68, 58), (80, 74), (90, 66)]]

/-- The scale-and-translate transform of `draw_icon`: with `s = size / 100`,
`ox = cx - 52 s`, `oy = cy - 50 s`, a design point `p` maps to
`(ox + p.x * s, oy + p.y * s)`. -/
def iconPoint (cx cy size : ℚ) (p : Pt) : Pt :=
  let s := size / 100
  let ox := cx - 52 * s
  let oy := cy - 50 * s
  (ox + p.1 * s, oy + p.2 * s)

/-- `draw_icon`: transforms each hardcoded curve and hands it to
`draw_breeze_curve` with the per-curve stroke width. -/
def draw_icon (cx cy size : ℚ) (color : Color) (line_widths : List ℤ) :
    List (List LineCmd) :=
  iconCurves.enum.map fun ic =>
    draw_breeze_curve (ic.2.map (iconPoint cx cy size))
      (line_widths.getD ic.1 0) color

-- --- draw_grid_dots ---

/-- `draw_grid_dots`: a rows x cols grid of filled circles. -/
def draw_grid_dots (x y : ℤ) (rows cols : ℕ) (spacing : ℤ) (color : Color)
    (radius : ℤ) : List EllipseCmd :=
  (List.range rows).flatMap fun r =>
    (List.range cols).map fun c =>
      let cx := x + (c : ℤ) * spacing
      let cy := y + (r : ℤ) * spacing
      ⟨((cx - radius : ℤ) : ℚ), ((cy - radius : ℤ) : ℚ),
       ((cx + radius : ℤ) : ℚ), ((cy + radius : ℤ) : ℚ), color⟩

-- --- generate_image: scaled measurements ---

/-- `scale = width / 1000.0`, the normalisation to the xlarge size. -/
def scaleOf (width : ℕ) : ℚ := (width : ℚ) / 1000

/-- Vertical-gradient rows: one full-width `draw.line` per row `y`, with the
channel blend `int(BG_DARK[c] * (1 - t*0.15) + BG_MID[c] * t * 0.15)` at
`t = y / height`.  (PIL's default stroke width for `line` is recorded as 0.) -/
def gradientLines (width height : ℕ) : List LineCmd :=
  (List.range height).map fun (y : ℕ) =>
    let t : ℚ := (y : ℚ) / (height : ℚ)
    let r := pyInt ((BG_DARK.getD 0 0 : ℚ) * (1 - t * 0.15) +
      (BG_MID.getD 0 0 : ℚ) * t * 0.15)
    let g := pyInt ((BG_DARK.getD 1 0 : ℚ) * (1 - t * 0.15) +
      (BG_MID.getD 1 0 : ℚ) * t * 0.15)
    let b := pyInt ((BG_DARK.getD 2 0 : ℚ) * (1 - t * 0.15) +
      (BG_MID.getD 2 0 : ℚ) * t * 0.15)
    ⟨((0 : ℚ), (y : ℚ)), ((width : ℚ), (y : ℚ)), [r, g, b], 0⟩

def grid_color : Color := [35, 55, 68]

def grid_spacing (width : ℕ) : ℤ := pyInt (70 * scaleOf width)

/-- Python `range(0, stop, step)` for a positive step. -/
def rangeStep (stop step : ℕ) : List ℕ :=
  (List.range ((stop + step - 1) / step)).map (· * step)

/-- Vertical grid lines; the `if grid_spacing > 0` guard of the script wraps
both grid loops, so with a zero spacing no `range` call is made at all. -/
def gridXLines (width height : ℕ) : List LineCmd :=
  if 0 < grid_spacing width then
    (rangeStep width (grid_spacing width).toNat).map fun (x : ℕ) =>
      ⟨((x : ℚ), (0 : ℚ)), ((x : ℚ), (height : ℚ)), grid_color, 1⟩
  else []

/-- Horizontal grid lines, under the same guard. -/
def gridYLines (width height : ℕ) : List LineCmd :=
  if 0 < grid_spacing width then
    (rangeStep height (grid_spacing width).toNat).map fun (y : ℕ) =>
      ⟨((0 : ℚ), (y : ℚ)), ((width : ℚ), (y : ℚ)), grid_color, 1⟩
  else []

def dot_r (width : ℕ) : ℤ := max 2 (pyInt (3 * scaleOf width))

def dot_spacing (width : ℕ) : ℤ := pyInt (18 * scaleOf width)

def dotsTopLeft (width : ℕ) : List EllipseCmd :=
  draw_grid_dots (pyInt (55 * scaleOf width)) (pyInt (45 * scaleOf width))
    3 3 (dot_spacing width) DOT_DIM (dot_r width)

def dotsTopRight (width : ℕ) : List EllipseCmd :=
  draw_grid_dots ((width : ℤ) - pyInt (100 * scaleOf width))
    (pyInt (45 * scaleOf width)) 3 3 (dot_spacing width) DOT_DIM (dot_r width)

/-- One `draw_decorative_wave` call's parameters.  The wave samples a
transcendental sine every 2 pixels; the sine values themselves are outside
the exact fragment the claims concern, so the call is recorded by its
arguments. -/
structure WaveSpec where
  y_base : ℚ
  amplitude : ℚ
  wavelength : ℚ
  x_start : ℚ
  x_end : ℚ
  color : Color
  width : ℤ
deriving DecidableEq

def waveOffsets : List ℤ := [-40, -15, 12, 38, 62]

def waveSpecs (width height : ℕ) : List WaveSpec :=
  waveOffsets.enum.map fun io =>
    { y_base := (height : ℚ) * 0.52 + (io.2 : ℚ) * scaleOf width
      amplitude := 12 * scaleOf width + (io.1 : ℚ) * 2 * scaleOf width
      wavelength := 350 * scaleOf width + (io.1 : ℚ) * 50 * scaleOf width
      x_start := 30 * scaleOf width
      x_end := (width : ℚ) - 30 * scaleOf width
      color := LINE_DIM
      width := max 1 (pyInt (1.5 * scaleOf width)) }

-- --- Green glow layer ---

def glow_cx (width : ℕ) : ℤ := Int.fdiv (width : ℤ) 2

def glow_cy (width height : ℕ) : ℤ :=
  pyInt ((height : ℚ) * 0.46 + 45 * scaleOf width)

def glow_rx (width : ℕ) : ℤ := pyInt (90 * scaleOf width)

def glow_ry (width : ℕ) : ℤ := pyInt (30 * scaleOf width)

/-- `alpha = int(8 * (20 - r))` (exact integer arithmetic in the script). -/
def glowAlphaRaw (r : ℤ) : ℤ := 8 * (20 - r)

/-- Horizontal half-axis `ex = glow_rx + r * 3 * scale` of the r-th ellipse. -/
def glowEx (width : ℕ) (r : ℤ) : ℚ :=
  (glow_rx width : ℚ) + (r : ℚ) * 3 * scaleOf width

/-- Vertical half-axis `ey = glow_ry + r * 1 * scale` of the r-th ellipse. -/
def glowEy (width : ℕ) (r : ℤ) : ℚ :=
  (glow_ry width : ℚ) + (r : ℚ) * 1 * scaleOf width

/-- The loop indices of `range(20, 0, -1)`: 20, 19, ..., 1. -/
def glowRs : List ℤ := (List.range 20).map fun (k : ℕ) => 20 - (k : ℤ)

def glowEllipse (width height : ℕ) (r : ℤ) : EllipseCmd :=
  { x0 := (glow_cx width : ℚ) - glowEx width r
    y0 := (glow_cy width height : ℚ) - glowEy width r
    x1 := (glow_cx width : ℚ) + glowEx width r
    y1 := (glow_cy width height : ℚ) + glowEy width r
    fill := [46, 204, 113, min (glowAlphaRaw r) 50] }

def glowEllipses (width height : ℕ) : List EllipseCmd :=
  glowRs.map (glowEllipse width height)

/-- The separate glow canvas: `Image.new('RGBA', (w, h), (0, 0, 0, 0))` plus
the ellipses drawn onto it. -/
structure GlowLayer where
  size : ℕ × ℕ
  background : List ℤ
  ellipses : List EllipseCmd
deriving DecidableEq

def glowLayer (width height : ℕ) : GlowLayer :=
  ⟨(width, height), [0, 0, 0, 0], glowEllipses width height⟩

-- --- Main icon placement ---

def icon_cx (width : ℕ) : ℤ := Int.fdiv (width : ℤ) 2

def icon_cy (height : ℕ) : ℤ := pyInt ((height : ℚ) * 0.40)

def icon_size (width : ℕ) : ℚ := 160 * scaleOf width

/-- `icon_lw = [max(2, int(5*scale)), max(2, int(4*scale)),
max(1, int(3.2*scale))]`. -/
def icon_lw (width : ℕ) : List ℤ :=
  [max 2 (pyInt (5 * scaleOf width)), max 2 (pyInt (4 * scaleOf width)),
   max 1 (pyInt (3.2 * scaleOf width))]

def iconCmds (width height : ℕ) : List (List LineCmd) :=
  draw_icon (icon_cx width : ℚ) (icon_cy height : ℚ) (icon_size width)
    ICON_WHITE (icon_lw width)

-- --- Fonts and the environment of fallible operations ---

inductive Font
  | truetype (path : String) (size : ℤ)
  | builtinDefault
deriving DecidableEq

inductive PILError
  | oserror
  | ioerror
deriving DecidableEq

/-- Which of the script's two fallible operations succeed in a given run:
the two `ImageFont.truetype` calls (they raise `OSError`/`IOError` when the
font file is unavailable) and the `img_rgb.save` call (it raises on an
unwritable path).  No other operation in the script can raise. -/
structure Env where
  mainFontOk : Bool
  smallFontOk : Bool
  saveOk : Bool
deriving DecidableEq

def fontPath : String := "/System/Library/Fonts/Helvetica.ttc"

def font_size (width : ℕ) : ℤ := max 10 (pyInt (16 * scaleOf width))

def small_font_size (width : ℕ) : ℤ := max 8 (pyInt (12 * scaleOf width))

/-- `ImageFont.truetype(path, size)`. -/
def imageFontTruetype (ok : Bool) (path : String) (size : ℤ) :
    Except PILError Font :=
  if ok then .ok (.truetype path size) else .error .oserror

/-- The `try/except (OSError, IOError)` block around the two font loads: an
exception anywhere in the block makes both fonts the built-in default. -/
def loadFonts (e : Env) (width : ℕ) : Font × Font :=
  match imageFontTruetype e.mainFontOk fontPath (font_size width) with
  | .error _ => (Font.builtinDefault, Font.builtinDefault)
  | .ok font =>
    match imageFontTruetype e.smallFontOk fontPath (small_font_size width) with
    | .error _ => (Font.builtinDefault, Font.builtinDefault)
    | .ok small_font => (font, small_font)

-- --- Sensor readings ---

def readings : List (String × Color) :=
  [("22.4°C", GREEN), ("58.2%", GREEN), ("CO₂  412 ppm", GREEN),
   ("VOC  Index 98", GREEN)]

def text_y (height : ℕ) : ℤ := pyInt ((height : ℚ) * 0.76)

def section_w (width : ℕ) : ℚ := (width : ℚ) / (readings.length : ℚ)

/-- One `draw.text` call.  The final x subtracts half the measured text
width `tw // 2`; the metric comes from the font rasteriser, so the spec
records the section centre `tx = int(section_w * i + section_w / 2)` the
script computes before the metric correction. -/
structure TextSpec where
  centerX : ℤ
  y : ℤ
  text : String
  fill : Color
  font : Font
deriving DecidableEq

def textSpecs (width height : ℕ) (font : Font) : List TextSpec :=
  readings.enum.map fun ir =>
    { centerX := pyInt (section_w width * (ir.1 : ℚ) + section_w width / 2)
      y := text_y height
      text := ir.2.1
      fill := TEXT_COL
      font := font }

-- --- Green progress bar ---

def bar_y (height : ℕ) : ℤ := pyInt ((height : ℚ) * 0.84)

def bar_h (width : ℕ) : ℤ := max 2 (pyInt (4 * scaleOf width))

def bar_w (width : ℕ) : ℤ := pyInt (250 * scaleOf width)

def bar_x (width : ℕ) : ℤ := Int.fdiv ((width : ℤ) - bar_w width) 2

/-- `fill_w = int(bar_w * 0.6)`. -/
def fill_w (width : ℕ) : ℤ := pyInt ((bar_w width : ℚ) * 0.6)

def trackRect (width height : ℕ) : RectCmd :=
  ⟨bar_x width, bar_y height, bar_x width + bar_w width,
   bar_y height + bar_h width, Int.fdiv (bar_h width) 2, [40, 60, 75]⟩

def fillRect (width height : ℕ) : RectCmd :=
  ⟨bar_x width, bar_y height, bar_x width + fill_w width,
   bar_y height + bar_h width, Int.fdiv (bar_h width) 2, GREEN⟩

-- --- The assembled pipeline ---

/-- Everything one `generate_image` call draws and saves, stage by stage in
program order. -/
structure Output where
  size : ℕ × ℕ
  gradient : List LineCmd
  gridX : List LineCmd
  gridY : List LineCmd
  dotsTL : List EllipseCmd
  dotsTR : List EllipseCmd
  waves : List WaveSpec
  glow : GlowLayer
  glowComposited : Bool
  icon : List (List LineCmd)
  font : Font
  smallFont : Font
  texts : List TextSpec
  track : RectCmd
  barFill : RectCmd
  savedTo : String
deriving DecidableEq

/-- `img_rgb.save(filename, 'PNG')`: raises on an unwritable path. -/
def saveImage (ok : Bool) (_filename : String) : Except PILError Unit :=
  if ok then .ok () else .error .ioerror

/-- `generate_image(width, height, filename)` under environment `e`.  The
font try/except is the only exception handler in the script; a save failure
propagates out of the function. -/
def generate_image (width height : ℕ) (filename : String) (e : Env) :
    Except PILError Output :=
  let fonts := loadFonts e width
  match saveImage e.saveOk filename with
  | .error err => .error err
  | .ok _ => .ok
      { size := (width, height)
        gradient := gradientLines width height
        gridX := gridXLines width height
        gridY := gridYLines width height
        dotsTL := dotsTopLeft width
        dotsTR := dotsTopRight width
        waves := waveSpecs width height
        glow := glowLayer width height
        glowComposited := true
        icon := iconCmds width height
        font := fonts.1
        smallFont := fonts.2
        texts := textSpecs width height fonts.1
        track := trackRect width height
        barFill := fillRect width height
        savedTo := filename }

def exceptOk {ε α : Type} : Except ε α → Bool
  | .ok _ => true
  | .error _ => false

/-- The three sizes the `__main__` block renders. -/
def configuredSizes : List (ℕ × ℕ) := [(250, 175), (500, 350), (1000, 700)]

-- --- Shared helper lemmas ---

theorem scaleOf_nonneg (width : ℕ) : 0 ≤ scaleOf width := by
  unfold scaleOf
  positivity

theorem bar_w_nonneg (width : ℕ) : 0 ≤ bar_w width := by
  exact pyInt_nonneg (by have := scaleOf_nonneg width; linarith)

-- --- Claims ---

/-- C1: for every list of 7 control points, `draw_breeze_curve` samples two
cubic Bézier segments (control points 0-3 and 3-6) at 80 steps each by the
closed cubic Bernstein formula, yielding a polyline of exactly 161 points;
the sample at the join (index 80) is control point 3, which is not sampled
again: the second segment's samples are exactly the full second-segment
sample list with its `t = 0` head (whose value is control point 3) dropped;
and the polyline is continuous at the join: the first segment's `t = 1`
value and the second segment's `t = 0` value are both control point 3. -/
theorem C1_breeze_two_segment_polyline (points : List Pt)
    (_h : points.length = 7) :
    (breezePoints points).length = 161 ∧
    (breezePoints points)[80]? = some (points.getD 3 defaultPt) ∧
    breezePoints points = seg1Samples points ++ (seg2AllSamples points).tail ∧
    (seg2AllSamples points).head? = some (points.getD 3 defaultPt) ∧
    cubic_bezier (points.getD 0 defaultPt) (points.getD 1 defaultPt)
      (points.getD 2 defaultPt) (points.getD 3 defaultPt) 1 =
      points.getD 3 defaultPt ∧
    cubic_bezier (points.getD 3 defaultPt) (points.getD 4 defaultPt)
      (points.getD 5 defaultPt) (points.getD 6 defaultPt) 0 =
      points.getD 3 defaultPt :=
  ⟨breezePoints_length points, breezePoints_join points,
   breezePoints_eq_append_tail points, seg2AllSamples_head points,
   cubic_bezier_one _ _ _ _, cubic_bezier_zero _ _ _ _⟩

/-- Concrete input for the C1 witness: the icon's top curve. -/
def topCurve : List Pt :=
  [(18, 30), (30, 18), (44, 42), (56, 30), (68, 18), (80, 34), (90, 26)]

/-- Witness for C1 at the icon's top curve. -/
theorem C1_breeze_two_segment_polyline_witness :
    topCurve.length = 7 ∧
    (breezePoints topCurve).length = 161 ∧
    (breezePoints topCurve)[80]? = some (topCurve.getD 3 defaultPt) :=
  ⟨rfl, (C1_breeze_two_segment_polyline topCurve rfl).1,
   (C1_breeze_two_segment_polyline topCurve rfl).2.1⟩

/-- C8: the sampled polyline is a pure, deterministic function of the
control points alone: the coordinate pairs of the emitted line segments do
not depend on the stroke width or colour, and equal the consecutive pairs of
`breezePoints`. -/
theorem C8_sampler_deterministic (points : List Pt) (w₁ w₂ : ℤ)
    (c₁ c₂ : Color) :
    (draw_breeze_curve points w₁ c₁).map (fun l => (l.a, l.b)) =
      (draw_breeze_curve points w₂ c₂).map (fun l => (l.a, l.b)) ∧
    (draw_breeze_curve points w₁ c₁).map (fun l => (l.a, l.b)) =
      (breezePoints points).zip (breezePoints points).tail := by
  constructor <;> simp [draw_breeze_curve, Function.comp_def]

/-- C6: the scale-and-translate transform of `draw_icon` maps the design
point (52, 50) exactly onto the requested centre, `draw_icon` renders
exactly the three hardcoded curves through that pointwise affine map, and
the transform commutes with the Bézier evaluator (so the sampled curves are
the affine image of the design-space curves: scaled and translated, never
reshaped). -/
theorem C6_icon_transform_centering (cx cy size : ℚ) (color : Color)
    (line_widths : List ℤ) :
    iconPoint cx cy size (52, 50) = (cx, cy) ∧
    draw_icon cx cy size color line_widths =
      iconCurves.enum.map (fun ic =>
        draw_breeze_curve (ic.2.map (iconPoint cx cy size))
          (line_widths.getD ic.1 0) color) ∧
    (∀ p0 p1 p2 p3 : Pt, ∀ t : ℚ,
      iconPoint cx cy size (cubic_bezier p0 p1 p2 p3 t) =
        cubic_bezier (iconPoint cx cy size p0) (iconPoint cx cy size p1)
          (iconPoint cx cy size p2) (iconPoint cx cy size p3) t) := by
  refine ⟨?_, rfl, ?_⟩
  · apply Prod.ext <;> simp only [iconPoint] <;> ring
  · intro p0 p1 p2 p3 t
    apply Prod.ext <;> simp only [iconPoint, cubic_bezier] <;> ring

/-- C2: the progress bar's green fill width is the integer floor of 0.6
times the track width, the fill rectangle starts at the track's left edge,
and its right edge never exceeds the track's right edge. -/
theorem C2_progress_bar_fill (width height : ℕ) :
    fill_w width = ⌊(0.6 : ℚ) * (bar_w width : ℚ)⌋ ∧
    (fillRect width height).x0 = (trackRect width height).x0 ∧
    (fillRect width height).x1 ≤ (trackRect width height).x1 := by
  have hbw : (0 : ℚ) ≤ (bar_w width : ℚ) := by
    exact_mod_cast bar_w_nonneg width
  have hfw : fill_w width = ⌊(0.6 : ℚ) * (bar_w width : ℚ)⌋ := by
    rw [fill_w, pyInt_eq_floor (by nlinarith), mul_comm]
  refine ⟨hfw, rfl, ?_⟩
  show bar_x width + fill_w width ≤ bar_x width + bar_w width
  have : fill_w width ≤ bar_w width := by
    rw [hfw]
    calc ⌊(0.6 : ℚ) * (bar_w width : ℚ)⌋ ≤ ⌊((bar_w width : ℤ) : ℚ)⌋ :=
          Int.floor_le_floor (by nlinarith)
      _ = bar_w width := Int.floor_intCast _
  omega

/-- C3 counterexample: at the configured output width 250 (and equally at
500) the three icon stroke widths are [2, 2, 1]: the top and middle strokes
coincide, so the widths are not pairwise distinct. -/
theorem C3_stroke_widths_counterexample :
    icon_lw 250 = [2, 2, 1] ∧ ¬ List.Pairwise (· ≠ ·) (icon_lw 250) := by
  have h : icon_lw 250 = [2, 2, 1] := by
    norm_num [icon_lw, scaleOf, pyInt]
  exact ⟨h, by rw [h]; decide⟩

/-- C3 amended: the three stroke widths are computed as
`max(2, int(5*scale))`, `max(2, int(4*scale))`, `max(1, int(3.2*scale))`;
at width 1000 they are [5, 4, 3] and pairwise distinct, but at the
configured widths 250 and 500 they are [2, 2, 1]: only the bottom stroke
differs, the top and middle strokes share width 2. -/
theorem C3_stroke_widths (width : ℕ) :
    icon_lw width = [max 2 ⌊5 * scaleOf width⌋, max 2 ⌊4 * scaleOf width⌋,
      max 1 ⌊(3.2 : ℚ) * scaleOf width⌋] ∧
    icon_lw 1000 = [5, 4, 3] ∧
    List.Pairwise (· ≠ ·) (icon_lw 1000) ∧
    icon_lw 250 = [2, 2, 1] ∧
    icon_lw 500 = [2, 2, 1] := by
  have hs := scaleOf_nonneg width
  refine ⟨?_, ?_, ?_, ?_, ?_⟩
  · rw [icon_lw, pyInt_eq_floor (by nlinarith), pyInt_eq_floor (by nlinarith),
      pyInt_eq_floor (by nlinarith)]
  · norm_num [icon_lw, scaleOf, pyInt]
  · have h : icon_lw 1000 = [5, 4, 3] := by norm_num [icon_lw, scaleOf, pyInt]
    rw [h]; decide
  · norm_num [icon_lw, scaleOf, pyInt]
  · norm_num [icon_lw, scaleOf, pyInt]

/-- The width-scaled integer measurements of `generate_image`, in program
order: grid spacing, dot radius and spacing, the dot-grid origin
coordinates and the top-right inset, the wave stroke width, the glow radii,
the three icon stroke widths, the two font sizes, and the bar height and
width. -/
def scaledMeasurements (width : ℕ) : List ℤ :=
  [grid_spacing width, dot_r width, dot_spacing width,
   pyInt (55 * scaleOf width), pyInt (45 * scaleOf width),
   pyInt (100 * scaleOf width), max 1 (pyInt (1.5 * scaleOf width)),
   glow_rx width, glow_ry width] ++ icon_lw width ++
  [font_size width, small_font_size width, bar_h width, bar_w width]

/-- C4: the scale factor is exactly `width / 1000`, the dot radius and bar
height respect their minimums of 2, and every floored scaled measurement is
a non-negative integer. -/
theorem C4_scale_and_minimums (width : ℕ) (_h : 0 < width) :
    scaleOf width = (width : ℚ) / 1000 ∧
    2 ≤ dot_r width ∧
    2 ≤ bar_h width ∧
    ∀ m ∈ scaledMeasurements width, 0 ≤ m := by
  have hs := scaleOf_nonneg width
  refine ⟨rfl, le_max_left _ _, le_max_left _ _, ?_⟩
  simp only [scaledMeasurements, icon_lw, grid_spacing, dot_r, dot_spacing,
    glow_rx, glow_ry, font_size, small_font_size, bar_h, bar_w,
    List.forall_mem_append, List.forall_mem_cons, List.mem_singleton,
    forall_eq, List.not_mem_nil, false_implies, implies_true, and_true]
  repeat' apply And.intro
  all_goals
    first
      | exact pyInt_nonneg (by nlinarith)
      | exact le_trans (by norm_num) (le_max_left _ _)

/-- Witness for C4 at the small output width. -/
theorem C4_scale_and_minimums_witness :
    0 < 250 ∧ 2 ≤ dot_r 250 ∧ 2 ≤ bar_h 250 :=
  ⟨by decide, (C4_scale_and_minimums 250 (by decide)).2.1,
   (C4_scale_and_minimums 250 (by decide)).2.2.1⟩

/-- C5: the glow is built on a separate layer whose background is the fully
transparent (0,0,0,0); exactly 20 ellipses are drawn, one per
r = 20, 19, ..., 1; each is filled with green at alpha
`min(8*(20-r), 50)`; and for a positive width the half-axes grow strictly
with r while the raw alpha `8*(20-r)` strictly falls. -/
theorem C5_glow_layer (width height : ℕ) (hw : 0 < width) :
    (glowLayer width height).background = [0, 0, 0, 0] ∧
    (glowLayer width height).ellipses = glowEllipses width height ∧
    (glowEllipses width height).length = 20 ∧
    glowRs = [20, 19, 18, 17, 16, 15, 14, 13, 12, 11,
              10, 9, 8, 7, 6, 5, 4, 3, 2, 1] ∧
    (∀ r : ℤ, (glowEllipse width height r).fill =
      [46, 204, 113, min (8 * (20 - r)) 50]) ∧
    (∀ r s : ℤ, r < s →
      glowEx width r < glowEx width s ∧ glowEy width r < glowEy width s ∧
      glowAlphaRaw s < glowAlphaRaw r) ∧
    (∀ filename : String, ∀ e : Env, ∀ out : Output,
      generate_image width height filename e = .ok out →
      out.glow = glowLayer width height ∧ out.glowComposited = true) := by
  have hs : 0 < scaleOf width := by
    rw [scaleOf]
    have : (0 : ℚ) < (width : ℚ) := by exact_mod_cast hw
    positivity
  refine ⟨rfl, rfl, by rw [glowEllipses, List.length_map]; decide, by decide,
    fun r => rfl, fun r s hrs => ?_, fun fn e out h => ?_⟩
  · have hq : (r : ℚ) < (s : ℚ) := by exact_mod_cast hrs
    refine ⟨?_, ?_, ?_⟩
    · rw [glowEx, glowEx]
      have : (r : ℚ) * 3 * scaleOf width < (s : ℚ) * 3 * scaleOf width := by
        nlinarith
      linarith
    · rw [glowEy, glowEy]
      have : (r : ℚ) * 1 * scaleOf width < (s : ℚ) * 1 * scaleOf width := by
        nlinarith
      linarith
    · rw [glowAlphaRaw, glowAlphaRaw]
      omega
  · obtain ⟨m, s, sv⟩ := e
    cases sv
    · simp [generate_image, saveImage] at h
    · simp [generate_image, saveImage] at h
      subst h
      exact ⟨rfl, rfl⟩

/-- Witness for C5 at the small output size and the pair r = 1, s = 2. -/
theorem C5_glow_layer_witness :
    0 < 250 ∧ (glowLayer 250 175).background = [0, 0, 0, 0] ∧
    (glowEllipses 250 175).length = 20 ∧
    (1 : ℤ) < 2 ∧ glowEx 250 1 < glowEx 250 2 :=
  ⟨by decide, (C5_glow_layer 250 175 (by decide)).1,
   (C5_glow_layer 250 175 (by decide)).2.2.1, by decide,
   ((C5_glow_layer 250 175 (by decide)).2.2.2.2.2.1 1 2 (by decide)).1⟩

/-- C9: the grid spacing `int(70 * scale)` is zero exactly for widths below
15; in that case the `if grid_spacing > 0` guard skips both grid loops, so
no grid line is drawn and `range` is never called with a zero step; for
widths of at least 15 the spacing is positive. -/
theorem C9_grid_guard (width height : ℕ) :
    (grid_spacing width = 0 ↔ width < 15) ∧
    (width < 15 → gridXLines width height = [] ∧
      gridYLines width height = []) ∧
    (15 ≤ width → 0 < grid_spacing width) := by
  have hs := scaleOf_nonneg width
  have key : grid_spacing width = ⌊(7 * width : ℚ) / 100⌋ := by
    rw [grid_spacing, pyInt_eq_floor (by nlinarith)]
    congr 1
    rw [scaleOf]
    ring
  have h0 : grid_spacing width = 0 ↔ width < 15 := by
    rw [key, Int.floor_eq_zero_iff, Set.mem_Ico, div_lt_one (by norm_num)]
    constructor
    · rintro ⟨-, h⟩
      have : (7 * width : ℕ) < 100 := by exact_mod_cast h
      omega
    · intro h
      refine ⟨by positivity, ?_⟩
      have : ((7 * width : ℕ) : ℚ) < 100 := by exact_mod_cast by omega
      push_cast at this ⊢
      linarith
  have hnn : 0 ≤ grid_spacing width := pyInt_nonneg (by nlinarith)
  refine ⟨h0, fun hlt => ?_, fun hge => ?_⟩
  · have hz : grid_spacing width = 0 := h0.mpr hlt
    constructor <;> simp [gridXLines, gridYLines, hz]
  · rcases hnn.lt_or_eq with h | h
    · exact h
    · have := h0.mp h.symm
      omega

/-- Witness for C9 at width 10 (below the threshold). -/
theorem C9_grid_guard_witness :
    grid_spacing 10 = 0 ∧ gridXLines 10 7 = [] ∧ gridYLines 10 7 = [] :=
  ⟨(C9_grid_guard 10 7).1.mpr (by decide),
   ((C9_grid_guard 10 7).2.1 (by decide)).1,
   ((C9_grid_guard 10 7).2.1 (by decide)).2⟩

/-- C10: the outermost glow ellipse (r = 20) has raw alpha 8*(20-20) = 0,
i.e. it is drawn fully transparent, so of the 20 ellipses at most 19 carry
a positive alpha; the applied alpha `min(8*(20-r), 50)` never exceeds 50
and reaches 50 exactly for r no greater than 13. -/
theorem C10_glow_alpha_profile (width height : ℕ) :
    glowAlphaRaw 20 = 0 ∧
    (glowEllipse width height 20).fill = [46, 204, 113, 0] ∧
    ((glowEllipses width height).filter
      (fun e => 0 < e.fill.getD 3 0)).length = 19 ∧
    (∀ r : ℤ, 1 ≤ r → r ≤ 20 →
      min (glowAlphaRaw r) 50 ≤ 50 ∧
      (min (glowAlphaRaw r) 50 = 50 ↔ r ≤ 13)) := by
  refine ⟨by decide, by norm_num [glowEllipse, glowAlphaRaw], ?_,
    fun r h1 h2 => ⟨min_le_right _ _, ?_⟩⟩
  · simp only [glowEllipses, List.filter_map]
    rw [List.length_map]
    have h : ((fun e => decide (0 < List.getD e.fill 3 0)) ∘
        glowEllipse width height) =
        fun r => decide (0 < min (glowAlphaRaw r) 50) := rfl
    rw [h]
    decide
  · simp only [glowAlphaRaw]
    omega

/-- Witness for C10 at the small output size and r = 13. -/
theorem C10_glow_alpha_profile_witness :
    glowAlphaRaw 20 = 0 ∧
    ((glowEllipses 250 175).filter
      (fun e => 0 < e.fill.getD 3 0)).length = 19 ∧
    (1 : ℤ) ≤ 13 ∧ min (glowAlphaRaw 13) 50 = 50 :=
  ⟨(C10_glow_alpha_profile 250 175).1,
   (C10_glow_alpha_profile 250 175).2.2.1, by decide,
   ((C10_glow_alpha_profile 250 175).2.2.2 13 (by decide)
     (by decide)).2.mpr (by decide)⟩

/-- C7: a failure of either `ImageFont.truetype` call makes both fonts the
built-in default and the pipeline still completes (the result is ok exactly
when the save succeeds, independent of the font flags, and the ok output
carries every later stage); a save failure is not caught and propagates as
the error of the whole call. -/
theorem C7_font_fallback_save_fatal (width height : ℕ) (filename : String)
    (e : Env) :
    exceptOk (generate_image width height filename e) = e.saveOk ∧
    (e.mainFontOk = false →
      loadFonts e width = (.builtinDefault, .builtinDefault)) ∧
    (e.smallFontOk = false →
      loadFonts e width = (.builtinDefault, .builtinDefault)) ∧
    (e.saveOk = false →
      generate_image width height filename e = .error .ioerror) ∧
    (∀ out : Output, generate_image width height filename e = .ok out →
      out.font = (loadFonts e width).1 ∧
      out.smallFont = (loadFonts e width).2 ∧
      out.glow = glowLayer width height ∧
      out.icon = iconCmds width height ∧
      out.texts = textSpecs width height (loadFonts e width).1 ∧
      out.track = trackRect width height ∧
      out.barFill = fillRect width height ∧
      out.savedTo = filename) := by
  obtain ⟨m, s, sv⟩ := e
  cases sv <;> cases m <;> cases s <;>
    simp [generate_image, saveImage, loadFonts, imageFontTruetype, exceptOk]

/-- Witness for C7: with both font loads failing and the save succeeding,
the run completes and both fonts are the built-in default. -/
theorem C7_font_fallback_save_fatal_witness :
    exceptOk (generate_image 250 175 "small.png" ⟨false, false, true⟩) =
      true ∧
    loadFonts ⟨false, false, true⟩ 250 = (.builtinDefault, .builtinDefault) :=
  ⟨(C7_font_fallback_save_fatal 250 175 "small.png" ⟨false, false, true⟩).1,
   (C7_font_fallback_save_fatal 250 175 "small.png"
     ⟨false, false, true⟩).2.1 rfl⟩

end OpenAIR
